import Mathlib

/-!
Shallow embedding of the WaveGenerator repository (src/main.cpp,
src/WaveHeader.h, src/SineWaveGen.h).

Modelling conventions:
* C++ `double` values are modelled as exact rational numbers (every finite
  double is a rational).  All concrete inputs used in witnesses and
  counterexamples below are small dyadic rationals for which the C++
  double computations are exact, so the Lean values coincide with the
  values the compiled program computes.
* `static_cast` from a floating value to an integer type truncates toward
  zero (`ratTrunc` / `realTrunc`); conversion to an unsigned type is
  modelled with `Int.toNat` (the source never reaches that cast with a
  negative value on a defined path).
* Unsigned 32-bit arithmetic is modelled on `ℕ` with explicit `% 2^32`
  where the source can wrap.
* The sine evaluation `std::sin` is modelled with `Real.sin` (exact real
  arithmetic); the claims that touch sample values only use index 0,
  where the C library function is exact as well (`sin(±0) = ±0`).
* File I/O: `write_to_file` receives a boolean telling whether the
  destination could be opened; on success the model returns the byte
  sequence written to the file (header bytes followed by payload bytes),
  and an `Except.error` result means no file content was produced.
-/

namespace WaveGen

/-- `static_cast<intN_t>(double)`: truncation toward zero, on ℚ. -/
def ratTrunc (q : ℚ) : ℤ := if 0 ≤ q then ⌊q⌋ else ⌈q⌉

/-- `static_cast<int32_t>(double)`: truncation toward zero, on ℝ
(used for the sine sample value). -/
noncomputable def realTrunc (x : ℝ) : ℤ := if 0 ≤ x then ⌊x⌋ else ⌈x⌉

-- Constants from src/main.cpp
def k_amplitude : ℕ := 30000000
def k_sample_rate : ℕ := 48000
def k_bits_per_sample : ℕ := 24

-- Constants from src/WaveHeader.h
def k_header_bloc_size : ℕ := 16
def k_channel_count_mono : ℕ := 1
def k_audio_format_PCM : ℕ := 1

/-- `sizeof(wave::WaveHeader)`: 4+4+4+4+4+2+2+4+4+2+2+4+4 = 44 bytes,
naturally aligned, no padding. -/
def k_header_size : ℕ := 44

def UINT32_MAX : ℕ := 4294967295

/-- The `wave::WaveHeader` struct from src/WaveHeader.h.  The four tag
fields hold raw bytes; the integer fields hold the (unsigned) values
stored in the struct. -/
structure WaveHeader where
  file_type_bloc_id : List ℕ
  file_size : ℕ
  file_format_id : List ℕ
  format_bloc_id : List ℕ
  bloc_size : ℕ
  audio_format : ℕ
  channel_count : ℕ
  sample_rate : ℕ
  bytes_per_sec : ℕ
  bytes_per_bloc : ℕ
  bits_per_sample : ℕ
  data_bloc_id : List ℕ
  data_size : ℕ
deriving Repr, DecidableEq

def riffId : List ℕ := [82, 73, 70, 70]   -- "RIFF"
def waveId : List ℕ := [87, 65, 86, 69]   -- "WAVE"
def fmtId : List ℕ := [102, 109, 116, 32] -- "fmt "
def dataId : List ℕ := [100, 97, 116, 97] -- "data"

/-- Little-endian serialization of a 16-bit field. -/
def le16 (n : ℕ) : List ℕ := [n % 256, n / 256 % 256]

/-- Little-endian serialization of a 32-bit field. -/
def le32 (n : ℕ) : List ℕ :=
  [n % 256, n / 256 % 256, n / 65536 % 256, n / 16777216 % 256]

/-- The 44 bytes `create_wave_header` copies out of the struct
(x86-64 layout: fields in declaration order, little-endian, no padding). -/
def serializeHeader (h : WaveHeader) : List ℕ :=
  h.file_type_bloc_id ++ le32 h.file_size ++ h.file_format_id ++
  h.format_bloc_id ++ le32 h.bloc_size ++ le16 h.audio_format ++
  le16 h.channel_count ++ le32 h.sample_rate ++ le32 h.bytes_per_sec ++
  le16 h.bytes_per_bloc ++ le16 h.bits_per_sample ++
  h.data_bloc_id ++ le32 h.data_size

/-- The exceptions thrown in src/main.cpp, as an error type
(`std::invalid_argument`, `std::overflow_error`, and the two
`std::ofstream::failure` cases). -/
inductive WaveError where
  | invalidArgument (msg : String)
  | overflowError (msg : String)
  | openError (msg : String)
  | writeError (msg : String)
deriving Repr, DecidableEq

/-- `uint64_t data_size = static_cast<uint64_t>(file_length_sec * hdr.bytes_per_sec)`
with `bytes_per_sec = 48000 * (1 * 24 / 8) = 144000`. -/
def computed_data_size (file_length_sec : ℚ) : ℕ :=
  (ratTrunc (file_length_sec *
    ((k_sample_rate * (k_channel_count_mono * k_bits_per_sample / 8) : ℕ) : ℚ))).toNat

/-- `create_wave_header` from src/main.cpp: fills the struct, checks the
32-bit bound on `data_size`, and returns the 44 header bytes (modelled as
the structured header; `serializeHeader` gives the bytes). -/
def create_wave_header (file_length_sec : ℚ) : Except WaveError WaveHeader :=
  let bytes_per_bloc : ℕ := k_channel_count_mono * k_bits_per_sample / 8
  let bytes_per_sec : ℕ := k_sample_rate * bytes_per_bloc
  let data_size : ℕ := computed_data_size file_length_sec
  if data_size > UINT32_MAX then
    Except.error (WaveError.overflowError
      "File generation failed. Data size exceeds the maximum limit.")
  else
    Except.ok
      { file_type_bloc_id := riffId
        file_size := (k_header_size + data_size - 8) % 2 ^ 32
        file_format_id := waveId
        format_bloc_id := fmtId
        bloc_size := k_header_bloc_size
        audio_format := k_audio_format_PCM
        channel_count := k_channel_count_mono
        sample_rate := k_sample_rate
        bytes_per_sec := bytes_per_sec
        bytes_per_bloc := bytes_per_bloc
        bits_per_sample := k_bits_per_sample
        data_bloc_id := dataId
        data_size := data_size }

/-- The `wavegen::sine_wave_generator` object from src/SineWaveGen.h. -/
structure sine_wave_generator where
  m_amplitude : ℕ
  m_frequency : ℕ
  m_sample_rate : ℕ
deriving Repr, DecidableEq

/-- `sine_wave_generator::get_sample`.  The member function is non-const
in the source, so it is modelled state-passing; it reads but never writes
the members, hence returns the object unchanged. -/
noncomputable def get_sample (g : sine_wave_generator) (sample_index : ℕ) :
    ℤ × sine_wave_generator :=
  let time_increment : ℝ := 1 / (g.m_sample_rate : ℝ)
  let sample_time : ℝ := (sample_index : ℝ) * time_increment
  (realTrunc ((g.m_amplitude : ℝ) *
      Real.sin (2 * Real.pi * (g.m_frequency : ℝ) * sample_time)), g)

/-- `uint32_t total_sample_count = k_sample_rate * file_length_sec;`
(double product truncated toward zero by the unsigned cast). -/
def total_sample_count (file_length_sec : ℚ) : ℕ :=
  (ratTrunc ((k_sample_rate : ℚ) * file_length_sec)).toNat

/-- `sample & 0xFF`, `(sample >> 8) & 0xFF`, `(sample >> 16) & 0xFF`:
the three bytes pushed per sample (>> on a negative `int32_t` is an
arithmetic shift, i.e. floor division). -/
def encodeSample (sample : ℤ) : List ℕ :=
  [(sample % 256).toNat,
   (sample.fdiv 256 % 256).toNat,
   (sample.fdiv 65536 % 256).toNat]

/-- The sample loop of `create_wave_data`: runs indices `0 … n-1` through
the generator, threading the generator object, and accumulates the bytes
pushed into `samples`. -/
noncomputable def dataLoop (g : sine_wave_generator) : ℕ → List ℕ × sine_wave_generator
  | 0 => ([], g)
  | n + 1 =>
      let p := dataLoop g n
      let s := get_sample p.2 n
      (p.1 ++ encodeSample s.1, s.2)

/-- `create_wave_data` from src/main.cpp. -/
noncomputable def create_wave_data (wave_frequency : ℕ) (file_length_sec : ℚ) : List ℕ :=
  (dataLoop
    { m_amplitude := k_amplitude
      m_frequency := wave_frequency
      m_sample_rate := k_sample_rate }
    (total_sample_count file_length_sec)).1

/-- `write_to_file`: `open_ok` says whether the `std::ofstream` opened;
on success the result carries the bytes written (header then data). -/
def write_to_file (hdr data : List ℕ) (open_ok : Bool) : Except WaveError (List ℕ) :=
  if open_ok then Except.ok (hdr ++ data)
  else Except.error (WaveError.openError
    "File generation failed. Failed to open file audio.wav")

/-- `create_wave_file` from src/main.cpp: validates the duration, then the
Nyquist bound, then builds header and payload and writes them.  An
`Except.error` result models a thrown exception: no file content is
produced. -/
noncomputable def create_wave_file (wave_frequency : ℕ) (file_length_sec : ℚ)
    (open_ok : Bool) : Except WaveError (List ℕ) :=
  if file_length_sec ≤ 0 then
    Except.error (WaveError.invalidArgument
      "Invalid argument. File length should be greater than 0.")
  else if wave_frequency > k_sample_rate / 2 then
    Except.error (WaveError.invalidArgument
      "Invalid argument. Wave frequency should be less than or equal to half of the sample rate.")
  else
    match create_wave_header file_length_sec with
    | Except.error e => Except.error e
    | Except.ok hdr =>
        write_to_file (serializeHeader hdr)
          (create_wave_data wave_frequency file_length_sec) open_ok

/-- The sample value as a pure function of the constructor arguments
(amplitude, frequency, sample rate) and the index. -/
noncomputable def sampleValue (a f r : ℕ) (i : ℕ) : ℤ :=
  (get_sample { m_amplitude := a, m_frequency := f, m_sample_rate := r } i).1

/-- `data_size` field of the generated header (0 if the header call threw). -/
def headerDataSize (file_length_sec : ℚ) : ℕ :=
  match create_wave_header file_length_sec with
  | Except.ok h => h.data_size
  | Except.error _ => 0

/-- `file_size` field of the generated header (0 if the header call threw). -/
def headerFileSize (file_length_sec : ℚ) : ℕ :=
  match create_wave_header file_length_sec with
  | Except.ok h => h.file_size
  | Except.error _ => 0

/-- Whether a result is an overflow error. -/
def isOverflowErr {α : Type} : Except WaveError α → Bool
  | Except.error (WaveError.overflowError _) => true
  | _ => false

/-- Whether a result is an invalid-argument error. -/
def isInvalidArgErr {α : Type} : Except WaveError α → Bool
  | Except.error (WaveError.invalidArgument _) => true
  | _ => false

/-- Little-endian 24-bit two's-complement reader (a standard PCM decoder
for one sample), per the claim: byte2 carries the sign. -/
def decode24 (bs : List ℕ) : ℤ :=
  let u : ℕ := bs.getD 0 0 + 256 * bs.getD 1 0 + 65536 * bs.getD 2 0
  if u < 8388608 then (u : ℤ) else (u : ℤ) - 16777216


/-! ### Helper lemmas (shared between claims) -/

/-- The record `create_wave_header` fills when the computed `data_size`
is `n` and passes the 32-bit check (spelled out for proof reuse). -/
def mkHeader (n : ℕ) : WaveHeader :=
  { file_type_bloc_id := riffId
    file_size := (k_header_size + n - 8) % 2 ^ 32
    file_format_id := waveId
    format_bloc_id := fmtId
    bloc_size := k_header_bloc_size
    audio_format := k_audio_format_PCM
    channel_count := k_channel_count_mono
    sample_rate := k_sample_rate
    bytes_per_sec := 144000
    bytes_per_bloc := 3
    bits_per_sample := k_bits_per_sample
    data_bloc_id := dataId
    data_size := n }

lemma ratTrunc_eq_nat (q : ℚ) (n : ℕ) (h1 : (n : ℚ) ≤ q) (h2 : q < n + 1) :
    ratTrunc q = (n : ℤ) := by
  have h0 : 0 ≤ q := le_trans (by positivity) h1
  rw [ratTrunc, if_pos h0, Int.floor_eq_iff]
  constructor
  · push_cast; exact h1
  · push_cast; exact h2

lemma ratTrunc_nonpos (q : ℚ) (h : q ≤ 0) : ratTrunc q ≤ 0 := by
  rw [ratTrunc]
  split
  · have h1 : ((⌊q⌋ : ℚ)) ≤ 0 := le_trans (Int.floor_le q) h
    exact_mod_cast h1
  · rw [Int.ceil_le]
    exact_mod_cast h

lemma computed_data_size_eq (d : ℚ) (n : ℕ)
    (h1 : (n : ℚ) ≤ d * 144000) (h2 : d * 144000 < n + 1) :
    computed_data_size d = n := by
  have hc : ((k_sample_rate * (k_channel_count_mono * k_bits_per_sample / 8) : ℕ) : ℚ) = 144000 := by
    norm_num [k_sample_rate, k_channel_count_mono, k_bits_per_sample]
  rw [computed_data_size, hc, ratTrunc_eq_nat _ n h1 h2, Int.toNat_natCast]

lemma computed_data_size_nonpos (d : ℚ) (hd : d ≤ 0) : computed_data_size d = 0 := by
  have hq : d * ((k_sample_rate * (k_channel_count_mono * k_bits_per_sample / 8) : ℕ) : ℚ) ≤ 0 := by
    apply mul_nonpos_of_nonpos_of_nonneg hd
    positivity
  rw [computed_data_size, Int.toNat_eq_zero]
  exact ratTrunc_nonpos _ hq

lemma total_sample_count_eq (d : ℚ) (n : ℕ)
    (h1 : (n : ℚ) ≤ 48000 * d) (h2 : 48000 * d < n + 1) :
    total_sample_count d = n := by
  have hc : ((k_sample_rate : ℕ) : ℚ) = 48000 := by norm_num [k_sample_rate]
  rw [total_sample_count, hc, ratTrunc_eq_nat _ n h1 h2, Int.toNat_natCast]

lemma create_wave_header_ok (d : ℚ) (hle : computed_data_size d ≤ UINT32_MAX) :
    create_wave_header d = Except.ok (mkHeader (computed_data_size d)) := by
  rw [create_wave_header, if_neg (by omega)]
  rfl

lemma create_wave_header_overflow (d : ℚ) (hgt : computed_data_size d > UINT32_MAX) :
    create_wave_header d = Except.error (WaveError.overflowError
      "File generation failed. Data size exceeds the maximum limit.") := by
  rw [create_wave_header, if_pos (by omega)]

lemma cwf_invalid_duration (f : ℕ) (d : ℚ) (o : Bool) (hd : d ≤ 0) :
    create_wave_file f d o = Except.error (WaveError.invalidArgument
      "Invalid argument. File length should be greater than 0.") := by
  rw [create_wave_file, if_pos hd]

lemma cwf_invalid_freq (f : ℕ) (d : ℚ) (o : Bool) (hd : ¬ d ≤ 0) (hf : f > 24000) :
    create_wave_file f d o = Except.error (WaveError.invalidArgument
      "Invalid argument. Wave frequency should be less than or equal to half of the sample rate.") := by
  rw [create_wave_file, if_neg hd, if_pos (by simpa [k_sample_rate] using hf)]

lemma cwf_main (f : ℕ) (d : ℚ) (o : Bool) (hd : ¬ d ≤ 0) (hf : ¬ f > 24000) :
    create_wave_file f d o =
      match create_wave_header d with
      | Except.error e => Except.error e
      | Except.ok hdr =>
          write_to_file (serializeHeader hdr) (create_wave_data f d) o := by
  rw [create_wave_file, if_neg hd, if_neg (by simpa [k_sample_rate] using hf)]

lemma cwf_ok (f : ℕ) (d : ℚ) (o : Bool) (h : WaveHeader)
    (hd : ¬ d ≤ 0) (hf : ¬ f > 24000) (hh : create_wave_header d = Except.ok h) :
    create_wave_file f d o =
      write_to_file (serializeHeader h) (create_wave_data f d) o := by
  rw [cwf_main f d o hd hf, hh]

lemma cwf_err (f : ℕ) (d : ℚ) (o : Bool) (e : WaveError)
    (hd : ¬ d ≤ 0) (hf : ¬ f > 24000) (hh : create_wave_header d = Except.error e) :
    create_wave_file f d o = Except.error e := by
  rw [cwf_main f d o hd hf, hh]

lemma get_sample_snd (g : sine_wave_generator) (i : ℕ) : (get_sample g i).2 = g := rfl

lemma dataLoop_spec (g : sine_wave_generator) (n : ℕ) :
    dataLoop g n = ((List.range n).flatMap (fun i => encodeSample (get_sample g i).1), g) := by
  induction n with
  | zero => simp [dataLoop]
  | succ k ih =>
      rw [dataLoop, ih]
      simp [List.range_succ, get_sample_snd]

lemma create_wave_data_eq (f : ℕ) (d : ℚ) :
    create_wave_data f d =
      (List.range (total_sample_count d)).flatMap
        (fun i => encodeSample (sampleValue k_amplitude f k_sample_rate i)) := by
  rw [create_wave_data, dataLoop_spec]
  rfl

lemma flatMap_encode_length (l : List ℕ) (f : ℕ → ℤ) :
    (l.flatMap (fun i => encodeSample (f i))).length = 3 * l.length := by
  induction l with
  | nil => simp
  | cons a t ih =>
      rw [List.flatMap_cons, List.length_append, ih, List.length_cons]
      simp [encodeSample]
      ring

lemma create_wave_data_length (f : ℕ) (d : ℚ) :
    (create_wave_data f d).length = 3 * total_sample_count d := by
  rw [create_wave_data_eq, flatMap_encode_length, List.length_range]

lemma sampleValue_zero (a f r : ℕ) : sampleValue a f r 0 = 0 := by
  simp [sampleValue, get_sample, realTrunc]

lemma cds_one : computed_data_size 1 = 144000 := by
  apply computed_data_size_eq <;> norm_num

lemma tsc_one : total_sample_count 1 = 48000 := by
  apply total_sample_count_eq <;> norm_num

lemma cds_33554432 : computed_data_size 33554432 = 4831838208000 := by
  apply computed_data_size_eq <;> norm_num

lemma cwh_one : create_wave_header 1 = Except.ok (mkHeader 144000) := by
  have h := create_wave_header_ok 1 (by rw [cds_one]; norm_num [UINT32_MAX])
  rwa [cds_one] at h

lemma cwh_33554432 : create_wave_header 33554432 = Except.error (WaveError.overflowError
    "File generation failed. Data size exceeds the maximum limit.") :=
  create_wave_header_overflow _ (by rw [cds_33554432]; norm_num [UINT32_MAX])

lemma serializeHeader_length (h : WaveHeader)
    (h1 : h.file_type_bloc_id.length = 4) (h2 : h.file_format_id.length = 4)
    (h3 : h.format_bloc_id.length = 4) (h4 : h.data_bloc_id.length = 4) :
    (serializeHeader h).length = 44 := by
  simp [serializeHeader, le32, le16, h1, h2, h3, h4]


/-! ### Claim theorems -/

/-- C1: the claim states that for every valid duration the header's
`data_size` equals the byte length of the payload.  The code violates
this: at `file_length_sec = 1 + 1/2048` (the double 1.00048828125, for
which all double products are exact) the header declares
`data_size = trunc(144000 * d) = 144070` bytes while `create_wave_data`
produces `3 * trunc(48000 * d) = 3 * 48023 = 144069` bytes. -/
theorem c1_data_size_payload_mismatch :
    headerDataSize (1 + 1/2048) = 144070 ∧
    (create_wave_data 1000 (1 + 1/2048)).length = 144069 ∧
    (144070 : ℕ) ≠ 144069 := by
  have hds : computed_data_size (1 + 1/2048) = 144070 := by
    apply computed_data_size_eq <;> norm_num
  have hok := create_wave_header_ok (1 + 1/2048) (by rw [hds]; norm_num [UINT32_MAX])
  rw [hds] at hok
  refine ⟨by simp only [headerDataSize, hok]; rfl, ?_, by decide⟩
  rw [create_wave_data_length,
    total_sample_count_eq (1 + 1/2048) 48023 (by norm_num) (by norm_num)]

/-- C2 counterexample: the claim says an out-of-range `data_size` always
yields an overflow error, but the Nyquist validation runs first: with
frequency 48000 and duration 2^25 s the computed `data_size` exceeds
`2^32 - 1`, yet `create_wave_file` fails with an invalid-argument error,
not an overflow error. -/
theorem c2_overflow_preempted_by_frequency_check :
    computed_data_size 33554432 > UINT32_MAX ∧
    create_wave_file 48000 33554432 true = Except.error (WaveError.invalidArgument
      "Invalid argument. Wave frequency should be less than or equal to half of the sample rate.") ∧
    isOverflowErr (create_wave_file 48000 33554432 true) = false := by
  have hb : computed_data_size 33554432 > UINT32_MAX := by
    rw [cds_33554432]; norm_num [UINT32_MAX]
  have hfreq := cwf_invalid_freq 48000 33554432 true (by norm_num) (by norm_num)
  exact ⟨hb, hfreq, by rw [hfreq]; rfl⟩

/-- C2 (amended): provided the frequency passes the Nyquist validation
(`frequency ≤ 24000`), a computed `data_size` exceeding `2^32 - 1` makes
`create_wave_file` fail with the overflow error (so no file is opened or
written: the result carries no output bytes); and whenever `data_size`
is representable in 32 bits unsigned, no overflow error is raised. -/
theorem c2_overflow_error_boundary (f : ℕ) (d : ℚ) (o : Bool) :
    (f ≤ 24000 → computed_data_size d > UINT32_MAX →
      create_wave_file f d o = Except.error (WaveError.overflowError
        "File generation failed. Data size exceeds the maximum limit.")) ∧
    (computed_data_size d ≤ UINT32_MAX →
      isOverflowErr (create_wave_file f d o) = false) := by
  constructor
  · intro hf hds
    have hd : ¬ d ≤ 0 := by
      intro hd0
      rw [computed_data_size_nonpos d hd0] at hds
      exact absurd hds (by norm_num [UINT32_MAX])
    exact cwf_err f d o _ hd (by omega) (create_wave_header_overflow d hds)
  · intro hle
    by_cases hd : d ≤ 0
    · rw [cwf_invalid_duration f d o hd]; rfl
    · by_cases hf : f > 24000
      · rw [cwf_invalid_freq f d o hd hf]; rfl
      · rw [cwf_ok f d o _ hd hf (create_wave_header_ok d hle)]
        cases o <;> rfl

/-- C2 witness: at frequency 1000 and duration 2^25 s the overflow error
is raised; at duration 1 s no overflow error occurs. -/
theorem c2_overflow_error_boundary_w :
    create_wave_file 1000 33554432 true = Except.error (WaveError.overflowError
      "File generation failed. Data size exceeds the maximum limit.") ∧
    isOverflowErr (create_wave_file 1000 1 true) = false :=
  ⟨(c2_overflow_error_boundary 1000 33554432 true).1 (by norm_num)
      (by rw [cds_33554432]; norm_num [UINT32_MAX]),
   (c2_overflow_error_boundary 1000 1 true).2
      (by rw [cds_one]; norm_num [UINT32_MAX])⟩

/-- C3 counterexample: `file_size` is computed in unsigned 32-bit
arithmetic, so near the upper end of the valid range it wraps: at
duration `29826 + 1325/8192` s (an exact double with exact products) the
header passes the overflow check with `data_size = 4294967291`, but the
encoded `file_size` field is `31`, not `44 + data_size - 8 = 4294967327`. -/
theorem c3_file_size_field_wraps :
    computed_data_size (29826 + 1325/8192) = 4294967291 ∧
    computed_data_size (29826 + 1325/8192) ≤ UINT32_MAX ∧
    headerFileSize (29826 + 1325/8192) = 31 ∧
    (31 : ℕ) ≠ 44 + 4294967291 - 8 := by
  have hds : computed_data_size (29826 + 1325/8192) = 4294967291 := by
    apply computed_data_size_eq <;> norm_num
  have hok := create_wave_header_ok (29826 + 1325/8192)
    (by rw [hds]; norm_num [UINT32_MAX])
  rw [hds] at hok
  refine ⟨hds, by rw [hds]; norm_num [UINT32_MAX], ?_, by decide⟩
  simp only [headerFileSize, hok]
  norm_num [mkHeader, k_header_size]

/-- C3 (amended): for every duration whose header passes the 32-bit
check, the encoded header has `byte_rate = sample_rate x channel_count x
bits_per_sample/8 = 144000`, `block_align = channel_count x
bits_per_sample/8 = 3`, `file_size = (44 + data_size - 8) mod 2^32`
(equal to `44 + data_size - 8` whenever `data_size ≤ 2^32 - 37`), and
the serialized header occupies exactly 44 bytes. -/
theorem c3_header_field_invariants (d : ℚ) (h : WaveHeader)
    (hok : create_wave_header d = Except.ok h) :
    h.bytes_per_sec = h.sample_rate * h.channel_count * h.bits_per_sample / 8 ∧
    h.bytes_per_sec = 144000 ∧
    h.bytes_per_bloc = h.channel_count * h.bits_per_sample / 8 ∧
    h.bytes_per_bloc = 3 ∧
    h.file_size = (44 + h.data_size - 8) % 2 ^ 32 ∧
    (h.data_size ≤ 2 ^ 32 - 37 → h.file_size = 44 + h.data_size - 8) ∧
    (serializeHeader h).length = 44 := by
  by_cases hle : computed_data_size d ≤ UINT32_MAX
  · rw [create_wave_header_ok d hle] at hok
    injection hok with hok
    subst hok
    refine ⟨by norm_num [mkHeader, k_sample_rate, k_channel_count_mono, k_bits_per_sample],
      by norm_num [mkHeader], by norm_num [mkHeader, k_channel_count_mono, k_bits_per_sample],
      by norm_num [mkHeader], by norm_num [mkHeader, k_header_size], ?_, ?_⟩
    · intro hsmall
      simp only [mkHeader, k_header_size] at hsmall ⊢
      rw [Nat.mod_eq_of_lt (by omega)]
    · apply serializeHeader_length <;> rfl
  · rw [create_wave_header_overflow d (by omega)] at hok
    cases hok

/-- C3 witness: the header for duration 1 s. -/
theorem c3_header_field_invariants_w :
    (mkHeader 144000).bytes_per_sec =
      (mkHeader 144000).sample_rate * (mkHeader 144000).channel_count *
        (mkHeader 144000).bits_per_sample / 8 ∧
    (mkHeader 144000).bytes_per_sec = 144000 ∧
    (mkHeader 144000).bytes_per_bloc =
      (mkHeader 144000).channel_count * (mkHeader 144000).bits_per_sample / 8 ∧
    (mkHeader 144000).bytes_per_bloc = 3 ∧
    (mkHeader 144000).file_size = (44 + (mkHeader 144000).data_size - 8) % 2 ^ 32 ∧
    ((mkHeader 144000).data_size ≤ 2 ^ 32 - 37 →
      (mkHeader 144000).file_size = 44 + (mkHeader 144000).data_size - 8) ∧
    (serializeHeader (mkHeader 144000)).length = 44 :=
  c3_header_field_invariants 1 (mkHeader 144000) cwh_one

/-- C4 counterexample: the payload sample count is the truncation of
`48000 * duration`, not its nearest-integer rounding: at duration
`1 + 1/512` s (the exact double 1.001953125) the payload holds 48093
samples while `round(48000 * d) = 48094`. -/
theorem c4_count_is_truncated_not_rounded :
    (create_wave_data 1000 (1 + 1/512)).length = 3 * 48093 ∧
    round ((48000 : ℚ) * (1 + 1/512)) = 48094 ∧
    (48093 : ℕ) ≠ 48094 := by
  refine ⟨?_, ?_, by decide⟩
  · rw [create_wave_data_length,
      total_sample_count_eq (1 + 1/512) 48093 (by norm_num) (by norm_num)]
  · rw [round_eq, Int.floor_eq_iff]
    constructor <;> norm_num

/-- C4 (amended): for every nonnegative duration the payload built by
`create_wave_data` consists of exactly `trunc(48000 * duration)` samples
(truncation toward zero, i.e. the floor for nonnegative products), the
sample at position `i` being the generator's value at index `i` for
indices 0 through `total_sample_count - 1`. -/
theorem c4_payload_sample_count (f : ℕ) (d : ℚ) (hd : 0 ≤ d) :
    create_wave_data f d =
      (List.range (total_sample_count d)).flatMap
        (fun i => encodeSample (sampleValue k_amplitude f k_sample_rate i)) ∧
    (create_wave_data f d).length = 3 * total_sample_count d ∧
    total_sample_count d = (⌊(48000 : ℚ) * d⌋).toNat := by
  refine ⟨create_wave_data_eq f d, create_wave_data_length f d, ?_⟩
  have hc : ((k_sample_rate : ℕ) : ℚ) = 48000 := by norm_num [k_sample_rate]
  rw [total_sample_count, hc, ratTrunc, if_pos (by positivity)]

/-- C4 witness: duration 1 s gives 48000 samples. -/
theorem c4_payload_sample_count_w :
    create_wave_data 1000 1 =
      (List.range (total_sample_count 1)).flatMap
        (fun i => encodeSample (sampleValue k_amplitude 1000 k_sample_rate i)) ∧
    (create_wave_data 1000 1).length = 3 * total_sample_count 1 ∧
    total_sample_count 1 = (⌊(48000 : ℚ) * 1⌋).toNat :=
  c4_payload_sample_count 1000 1 (by decide)

/-- C5: for every signed sample value `v` the three bytes appended are
the little-endian bytes of `v mod 2^24` — a raw truncation of `v` to its
low 24 bits, least-significant byte first; and the encoding is not a
saturating clamp: `2^23` (out of range) is not encoded like `2^23 - 1`. -/
theorem c5_encode_is_24_bit_truncation (v : ℤ) :
    encodeSample v =
      [(v % 16777216).toNat % 256,
       (v % 16777216).toNat / 256 % 256,
       (v % 16777216).toNat / 65536 % 256] ∧
    encodeSample 8388608 ≠ encodeSample 8388607 := by
  constructor
  · have h1 : v.fdiv 256 = v / 256 := Int.fdiv_eq_ediv _ (by norm_num)
    have h2 : v.fdiv 65536 = v / 65536 := Int.fdiv_eq_ediv _ (by norm_num)
    simp only [encodeSample, h1, h2, List.cons.injEq, and_true]
    exact ⟨by omega, by omega, by omega⟩
  · decide

/-- C6: a frequency above half the sample rate (24000 Hz) makes
`create_wave_file` fail with an invalid-argument error (so nothing is
encoded or written: the result carries no output bytes); a frequency at
or below 24000 Hz never triggers the Nyquist rejection. -/
theorem c6_nyquist_validation (f : ℕ) (d : ℚ) (o : Bool) :
    (f > 24000 → isInvalidArgErr (create_wave_file f d o) = true) ∧
    (f ≤ 24000 → create_wave_file f d o ≠ Except.error (WaveError.invalidArgument
      "Invalid argument. Wave frequency should be less than or equal to half of the sample rate.")) := by
  constructor
  · intro hf
    by_cases hd : d ≤ 0
    · rw [cwf_invalid_duration f d o hd]; rfl
    · rw [cwf_invalid_freq f d o hd hf]; rfl
  · intro hf heq
    by_cases hd : d ≤ 0
    · rw [cwf_invalid_duration f d o hd] at heq
      simp only [Except.error.injEq, WaveError.invalidArgument.injEq] at heq
      exact absurd heq (by decide)
    · have hfreq : ¬ f > 24000 := by omega
      by_cases hle : computed_data_size d ≤ UINT32_MAX
      · rw [cwf_ok f d o _ hd hfreq (create_wave_header_ok d hle)] at heq
        cases o <;> simp [write_to_file] at heq
      · rw [cwf_err f d o _ hd hfreq (create_wave_header_overflow d (by omega))] at heq
        simp at heq

/-- C6 witness: frequency 25000 is rejected as invalid-argument;
frequency 24000 is not rejected by the Nyquist check. -/
theorem c6_nyquist_validation_w :
    isInvalidArgErr (create_wave_file 25000 1 true) = true ∧
    create_wave_file 24000 1 true ≠ Except.error (WaveError.invalidArgument
      "Invalid argument. Wave frequency should be less than or equal to half of the sample rate.") :=
  ⟨(c6_nyquist_validation 25000 1 true).1 (by norm_num),
   (c6_nyquist_validation 24000 1 true).2 (by norm_num)⟩

/-- C7: a duration `≤ 0` makes `create_wave_file` fail with the
invalid-argument error before the encoder runs; the encoder itself
(`create_wave_header`) can only fail with the overflow error (and
`create_wave_data` is a total function, performing no validation). -/
theorem c7_duration_validation (f : ℕ) (d : ℚ) (o : Bool) :
    (d ≤ 0 → create_wave_file f d o = Except.error (WaveError.invalidArgument
      "Invalid argument. File length should be greater than 0.")) ∧
    (∀ e, create_wave_header d = Except.error e →
      e = WaveError.overflowError
        "File generation failed. Data size exceeds the maximum limit.") := by
  constructor
  · exact cwf_invalid_duration f d o
  · intro e he
    by_cases hle : computed_data_size d ≤ UINT32_MAX
    · rw [create_wave_header_ok d hle] at he
      cases he
    · rw [create_wave_header_overflow d (by omega)] at he
      injection he with he
      exact he.symm

/-- C7 witness: duration -1 s is rejected; the encoder error at duration
2^25 s is the overflow error. -/
theorem c7_duration_validation_w :
    create_wave_file 1000 (-1) true = Except.error (WaveError.invalidArgument
      "Invalid argument. File length should be greater than 0.") ∧
    WaveError.overflowError "File generation failed. Data size exceeds the maximum limit." =
      WaveError.overflowError "File generation failed. Data size exceeds the maximum limit." :=
  ⟨(c7_duration_validation 1000 (-1) true).1 (by norm_num),
   (c7_duration_validation 1000 33554432 true).2
      (WaveError.overflowError "File generation failed. Data size exceeds the maximum limit.")
      cwh_33554432⟩

/-- C8: the concrete scenario — duration 1 s gives a header with
`data_size = 144000` and `file_size = 144036`; the sine generator with
amplitude 300000, frequency 1000 Hz and sample rate 48000 Hz yields
sample value 0 at index 0; and the first three payload bytes produced by
`create_wave_data` are 0x00 0x00 0x00. -/
theorem c8_concrete_scenario :
    headerDataSize 1 = 144000 ∧
    headerFileSize 1 = 144036 ∧
    sampleValue 300000 1000 48000 0 = 0 ∧
    (create_wave_data 1000 1).take 3 = [0, 0, 0] := by
  refine ⟨?_, ?_, sampleValue_zero 300000 1000 48000, ?_⟩
  · simp [headerDataSize, cwh_one, mkHeader]
  · simp only [headerFileSize, cwh_one]
    norm_num [mkHeader, k_header_size]
  · rw [create_wave_data_eq, tsc_one]
    have h48 : (48000 : ℕ) = 47999 + 1 := by norm_num
    rw [h48, List.range_succ_eq_map, List.flatMap_cons]
    rw [sampleValue_zero]
    rw [show (3 : ℕ) = (encodeSample (0 : ℤ)).length from rfl, List.take_left]
    decide

/-- C9: the encoding pipeline is deterministic — identical frequency,
duration and destination state give byte-for-byte identical header,
payload and file output (the generator parameters enter through the
fixed constants and the frequency argument). -/
theorem c9_deterministic_encoding (f₁ f₂ : ℕ) (d₁ d₂ : ℚ) (o₁ o₂ : Bool)
    (hf : f₁ = f₂) (hd : d₁ = d₂) (ho : o₁ = o₂) :
    create_wave_header d₁ = create_wave_header d₂ ∧
    create_wave_data f₁ d₁ = create_wave_data f₂ d₂ ∧
    create_wave_file f₁ d₁ o₁ = create_wave_file f₂ d₂ o₂ := by
  subst hf hd ho
  exact ⟨rfl, rfl, rfl⟩

/-- C9 witness: two runs at frequency 1000 Hz, duration 1 s. -/
theorem c9_deterministic_encoding_w :
    create_wave_header 1 = create_wave_header 1 ∧
    create_wave_data 1000 1 = create_wave_data 1000 1 ∧
    create_wave_file 1000 1 true = create_wave_file 1000 1 true :=
  c9_deterministic_encoding 1000 1000 1 1 true true rfl rfl rfl

/-- C10 counterexample: the claim says the decode round-trip holds
exactly when `|v| < 2^23`, yet at `v = -2^23` the round-trip succeeds
although `|v| = 2^23`: the correct boundary is `-2^23 ≤ v < 2^23`. -/
theorem c10_boundary_at_negative_2_pow_23 :
    decode24 (encodeSample (-8388608)) = -8388608 ∧
    ¬ ((-8388608 : ℤ).natAbs < 8388608) := by
  decide

/-- C10 (amended): decoding the three appended bytes as a little-endian
24-bit two's-complement integer yields the representative of `v` modulo
`2^24` lying in `[-2^23, 2^23)`; hence the round-trip returns `v` exactly
when `-2^23 ≤ v ≤ 2^23 - 1` (and outside that range the decoded value
differs from `v`). -/
theorem c10_roundtrip_region (v : ℤ) :
    decode24 (encodeSample v) = Int.bmod v 16777216 ∧
    (decode24 (encodeSample v) = v ↔ -8388608 ≤ v ∧ v < 8388608) := by
  have h1 : v.fdiv 256 = v / 256 := Int.fdiv_eq_ediv _ (by norm_num)
  have h2 : v.fdiv 65536 = v / 65536 := Int.fdiv_eq_ediv _ (by norm_num)
  have hb : decode24 (encodeSample v) = Int.bmod v 16777216 := by
    simp only [decode24, encodeSample, h1, h2, List.getD_cons_zero, List.getD_cons_succ]
    rw [Int.bmod_def]
    split <;> split <;> omega
  refine ⟨hb, ?_⟩
  rw [hb, Int.bmod_def]
  constructor
  · intro h
    split at h <;> omega
  · intro h
    split <;> omega

end WaveGen
